import Mathlib

/-!
Shallow embedding of the `wayland_fifo_test` client (src/main.rs).

The program keeps a pool of 4 shared-memory buffers, draws into the first
free one, optionally pairs every commit with fifo `wait_barrier`/`set_barrier`
calls, and reschedules itself either on an idle callback (when no buffer is
free) or on an immediate timer (after a successful submit).  The dispatch
loop (`main`) runs rounds of event delivery and breaks once the `exit` flag
is observed set.

We model the observable actions of one `draw` cycle as a list of events, the
window state (`SimpleWindow`) with the fields that control behaviour, and
the event loop as the sequential processing of lists of incoming callbacks,
producing a trace of events tagged with the value of the `exit` flag at the
moment the emitting handler ran.
-/

/-- Observable actions emitted by the client towards the compositor /
event loop.  `attach i` records which buffer was attached; `insertIdle` and
`insertTimer` record the scheduling of a follow-up draw. -/
inductive Ev where
  | waitBarrier
  | setBarrier
  | damage
  | attach (i : Fin 4)
  | commit
  | insertIdle
  | insertTimer
  | printDrawing
deriving DecidableEq, Repr

/-- State of `SimpleWindow` (src/main.rs, struct SimpleWindow) restricted to
the fields that drive the core behaviour: the `exit` flag, the
`first_configure` flag, the per-buffer in-use flags of the slot pool
(`pool.canvas(buffer).is_some()` is `inUse i = false`), the presence of the
fifo handle (`fifo: Option<WpFifoV1>` modelled by a Bool), and
`last_draw: Option<Instant>` with abstract `Nat` timestamps. -/
structure SimpleWindow where
  exit : Bool
  first_configure : Bool
  inUse : Fin 4 → Bool
  fifo : Bool
  lastDraw : Option Nat

/-- The free-buffer lookup
`self.buffers.iter().find(|buffer| self.pool.canvas(*buffer).is_some())`
(src/main.rs lines 300-304): the first buffer, in fixed index order, whose
slot is free. -/
def findFree (inUse : Fin 4 → Bool) : Option (Fin 4) :=
  (List.finRange 4).find? (fun i => !(inUse i))

/-- The events of a successful draw cycle: print the elapsed diagnostic,
damage the whole surface, attach buffer `i`, the barrier pair when the fifo
handle is present, the commit, and the immediate-timer reschedule
(src/main.rs lines 311-331). -/
def drawEvents (fifo : Bool) (i : Fin 4) : List Ev :=
  [Ev.printDrawing, Ev.damage, Ev.attach i] ++
    (if fifo then [Ev.waitBarrier, Ev.setBarrier] else []) ++
    [Ev.commit, Ev.insertTimer]

/-- Embedding of `SimpleWindow::draw` (src/main.rs lines 299-332).  When no
buffer is free, schedule an idle retry and return; otherwise record the
timestamp, mark the chosen buffer in use (the `attach_to` call activates the
slot), and emit the draw-cycle events. -/
def draw (now : Nat) (s : SimpleWindow) : SimpleWindow × List Ev :=
  match findFree s.inUse with
  | none => (s, [Ev.insertIdle])
  | some i =>
      ({ s with lastDraw := some now, inUse := Function.update s.inUse i true },
       drawEvents s.fifo i)

/-- Embedding of `SimpleWindow::draw` with the fallibility of
`buffer.attach_to(..)` made explicit: the source calls
`.expect("buffer attach")`, which aborts the process with that diagnostic
(non-zero exit status) when the attach fails.  An `Except.error` models the
abort; nothing after the failed attach is executed. -/
def drawE (attachOk : Bool) (now : Nat) (s : SimpleWindow) :
    Except String (SimpleWindow × List Ev) :=
  match findFree s.inUse with
  | none => Except.ok (s, [Ev.insertIdle])
  | some i =>
      if attachOk then
        Except.ok
          ({ s with lastDraw := some now, inUse := Function.update s.inUse i true },
           drawEvents s.fifo i)
      else Except.error "buffer attach"

/-- Embedding of `WindowHandler::configure` (src/main.rs lines 273-287):
draw once, on the first configure only, clearing `first_configure`. -/
def configure (now : Nat) (s : SimpleWindow) : SimpleWindow × List Ev :=
  if s.first_configure then draw now { s with first_configure := false }
  else (s, [])

/-- Embedding of `WindowHandler::request_close` (src/main.rs lines 269-271). -/
def requestClose (s : SimpleWindow) : SimpleWindow :=
  { s with exit := true }

/-- The slot-pool release path: the compositor releases buffer `i`, whose
slot becomes free again. -/
def releaseBuffer (i : Fin 4) (s : SimpleWindow) : SimpleWindow :=
  { s with inUse := Function.update s.inUse i false }

/-- Embedding of `let fifo_manager = if !args.no_fifo
{ globals.bind(..).ok() } else { None }` followed by
`fifo_manager.map(get_fifo)` (src/main.rs lines 67-80): the fifo handle
exists iff the flag did not disable it and the service is available. -/
def fifoHandle (no_fifo serviceAvail : Bool) : Bool :=
  if !no_fifo then serviceAvail else false

/-- Callbacks the event loop can deliver to `SimpleWindow`. -/
inductive InEv where
  | configureEv
  | closeRequest
  | release (i : Fin 4)
  | idleFire
  | timerFire
deriving DecidableEq, Repr

/-- Event-loop state: the window plus the numbers of pending idle-retry and
immediate-timer draw callbacks that `draw` has inserted. -/
structure LoopState where
  win : SimpleWindow
  idlePending : Nat
  timerPending : Nat

/-- Fold the scheduling events of a draw result into the pending-callback
counters. -/
def applyDraw (ls : LoopState) (r : SimpleWindow × List Ev) :
    LoopState × List Ev :=
  ({ win := r.1,
     idlePending := ls.idlePending + r.2.count Ev.insertIdle,
     timerPending := ls.timerPending + r.2.count Ev.insertTimer }, r.2)

/-- Deliver one callback.  `idleFire`/`timerFire` run `draw` only when a
corresponding callback is actually pending; note that, as in the source,
the callbacks re-check nothing: in particular they do not consult `exit`
(src/main.rs lines 305-307 and 326-331). -/
def handleEv (now : Nat) (e : InEv) (ls : LoopState) : LoopState × List Ev :=
  match e with
  | InEv.configureEv => applyDraw ls (configure now ls.win)
  | InEv.closeRequest => ({ ls with win := requestClose ls.win }, [])
  | InEv.release i => ({ ls with win := releaseBuffer i ls.win }, [])
  | InEv.idleFire =>
      if ls.idlePending = 0 then (ls, [])
      else applyDraw { ls with idlePending := ls.idlePending - 1 } (draw now ls.win)
  | InEv.timerFire =>
      if ls.timerPending = 0 then (ls, [])
      else applyDraw { ls with timerPending := ls.timerPending - 1 } (draw now ls.win)

/-- One dispatch round: the ready callbacks are delivered in order, each
handler running to completion.  Every emitted event is tagged with the
value of the `exit` flag at the moment its handler started. -/
def processList (now : Nat) : List InEv → LoopState → LoopState × List (Bool × Ev)
  | [], ls => (ls, [])
  | e :: es, ls =>
      let r := handleEv now e ls
      let rest := processList now es r.1
      (rest.1, r.2.map (fun ev => (ls.win.exit, ev)) ++ rest.2)

/-- The outer loop of `main` (src/main.rs lines 159-168): dispatch a round,
then break if `exit` is set; otherwise continue with the next round. -/
def runRounds (now : Nat) : List (List InEv) → LoopState → LoopState × List (Bool × Ev)
  | [], ls => (ls, [])
  | r :: rs, ls =>
      let p := processList now r ls
      if p.1.win.exit then p
      else
        let q := runRounds now rs p.1
        (q.1, p.2 ++ q.2)

/-- The window state as `main` constructs it (src/main.rs lines 142-156):
not exiting, awaiting the first configure, all four buffers free, fifo
handle as negotiated, no previous draw. -/
def initWindow (fifo : Bool) : SimpleWindow :=
  { exit := false, first_configure := true, inUse := fun _ => false,
    fifo := fifo, lastDraw := none }

/-- Initial loop state: no idle or timer callback pending. -/
def initLoopState (fifo : Bool) : LoopState :=
  { win := initWindow fifo, idlePending := 0, timerPending := 0 }

/-- Holds for every event other than the two barrier calls. -/
def notBarrier : Ev → Bool
  | Ev.waitBarrier => false
  | Ev.setBarrier => false
  | _ => true

/-- Recognizes the close-request callback, the only writer of `exit`. -/
def isClose : InEv → Bool
  | InEv.closeRequest => true
  | _ => false

/-- Final state after delivering `n` configure events in a row. -/
def runConfigures (now : Nat) : Nat → SimpleWindow → SimpleWindow
  | 0, s => s
  | n + 1, s => runConfigures now n (configure now s).1

/-- Number of the `n` consecutive configure events that trigger a draw from
inside the configure handler (the handler draws exactly when
`first_configure` is still set). -/
def configureDraws (now : Nat) : Nat → SimpleWindow → Nat
  | 0, _ => 0
  | n + 1, s => (if s.first_configure then 1 else 0) + configureDraws now n (configure now s).1

/-- Width of the fixed-size buffers (src/main.rs line 39). -/
def WIDTH : Nat := 256

/-- Height of the fixed-size buffers (src/main.rs line 40). -/
def HEIGHT : Nat := 256

/-- The byte size passed to `SlotPool::new` at startup
(src/main.rs lines 84-85). -/
def poolInitialSize : Nat := WIDTH * HEIGHT * 4

/-- Stride passed to each `create_buffer` call (src/main.rs lines 87-120). -/
def bufferStride : Nat := WIDTH * 4

/-- Byte size of one Argb8888 buffer: stride times height. -/
def bufferByteSize : Nat := bufferStride * HEIGHT

/-- The program creates exactly four buffers (src/main.rs lines 87-120). -/
def bufferCount : Nat := 4

/-- A window state with every buffer slot in use. -/
def winAllBusy : SimpleWindow :=
  { exit := false, first_configure := false, inUse := fun _ => true,
    fifo := true, lastDraw := none }

/-- A window state with every buffer free and the fifo handle present. -/
def winAllFree : SimpleWindow :=
  { exit := false, first_configure := false, inUse := fun _ => false,
    fifo := true, lastDraw := none }

/-- A loop state in which one timer draw callback (scheduled by a previous
successful draw) is still pending. -/
def lsTimerPending : LoopState :=
  { win := { exit := false, first_configure := false, inUse := fun _ => false,
             fifo := false, lastDraw := none },
    idlePending := 0, timerPending := 1 }

/-- The in-use flags of a pool in which all four buffers are free. -/
def allFreeFlags : Fin 4 → Bool := fun _ => false

/- ------------------------------------------------------------------ -/
/- Helper lemmas.                                                     -/
/- ------------------------------------------------------------------ -/

/-- Counting `commit` in the events of a successful draw cycle. -/
theorem drawEvents_count_commit (fifo : Bool) (i : Fin 4) :
    (drawEvents fifo i).count Ev.commit = 1 := by
  cases fifo <;> simp [drawEvents, List.count_cons]

/-- Counting `waitBarrier` in a paced draw cycle. -/
theorem drawEvents_count_wait (i : Fin 4) :
    (drawEvents true i).count Ev.waitBarrier = 1 := by
  simp [drawEvents, List.count_cons]

/-- Counting `setBarrier` in a paced draw cycle. -/
theorem drawEvents_count_set (i : Fin 4) :
    (drawEvents true i).count Ev.setBarrier = 1 := by
  simp [drawEvents, List.count_cons]

/-- `draw` leaves the `exit`, `first_configure` and `fifo` fields alone: it
only touches `lastDraw` and the in-use flags. -/
theorem draw_state_fields (now : Nat) (s : SimpleWindow) :
    ((draw now s).1).exit = s.exit ∧
    ((draw now s).1).first_configure = s.first_configure ∧
    ((draw now s).1).fifo = s.fifo := by
  cases h2 : findFree s.inUse <;> simp [draw, h2]

/-- A configure event delivered after the first one is a no-op. -/
theorem configure_of_not_first (now : Nat) (s : SimpleWindow)
    (h : s.first_configure = false) : configure now s = (s, []) := by
  simp [configure, h]

/-- Once `first_configure` is cleared, further configure events leave the
state untouched. -/
theorem runConfigures_of_not_first (now : Nat) (n : Nat) (s : SimpleWindow)
    (h : s.first_configure = false) : runConfigures now n s = s := by
  induction n with
  | zero => rfl
  | succ n ih =>
      rw [runConfigures, configure_of_not_first now s h]
      exact ih

/-- Once `first_configure` is cleared, no configure event triggers a draw. -/
theorem configureDraws_of_not_first (now : Nat) (n : Nat) (s : SimpleWindow)
    (h : s.first_configure = false) : configureDraws now n s = 0 := by
  induction n with
  | zero => rfl
  | succ n ih =>
      rw [configureDraws, configure_of_not_first now s h, h]
      simpa using ih

/-- The configure handler never changes `exit`. -/
theorem configure_exit (now : Nat) (s : SimpleWindow) :
    ((configure now s).1).exit = s.exit := by
  by_cases h : s.first_configure = true
  · simp only [configure, h, if_true]
    have := (draw_state_fields now { s with first_configure := false }).1
    simpa using this
  · simp [configure, h]

/-- Effect of one delivered callback on the `exit` flag: it is set exactly
by the close request and preserved by everything else. -/
theorem handleEv_exit (now : Nat) (e : InEv) (ls : LoopState) :
    ((handleEv now e ls).1).win.exit = (ls.win.exit || isClose e) := by
  cases e with
  | configureEv =>
      simp [handleEv, applyDraw, isClose, configure_exit]
  | closeRequest => simp [handleEv, requestClose, isClose]
  | release i => simp [handleEv, releaseBuffer, isClose]
  | idleFire =>
      by_cases h : ls.idlePending = 0
      · simp [handleEv, h, isClose]
      · simp only [handleEv, h, if_false, applyDraw, isClose, Bool.or_false]
        exact (draw_state_fields now ls.win).1
  | timerFire =>
      by_cases h : ls.timerPending = 0
      · simp [handleEv, h, isClose]
      · simp only [handleEv, h, if_false, applyDraw, isClose, Bool.or_false]
        exact (draw_state_fields now ls.win).1

/-- A draw by a window without the fifo handle emits no barrier calls. -/
theorem draw_noBarrier (now : Nat) (s : SimpleWindow) (h : s.fifo = false) :
    ((draw now s).2.all notBarrier) = true := by
  cases h2 : findFree s.inUse with
  | none => simp [draw, h2, notBarrier]
  | some i => simp [draw, h2, h, drawEvents, notBarrier]

/-- The configure handler never changes the fifo handle. -/
theorem configure_fifo (now : Nat) (s : SimpleWindow) :
    ((configure now s).1).fifo = s.fifo := by
  by_cases h : s.first_configure = true
  · simp only [configure, h, if_true]
    have := (draw_state_fields now { s with first_configure := false }).2.2
    simpa using this
  · simp [configure, h]

/-- The configure handler of a window without the fifo handle emits no
barrier calls. -/
theorem configure_noBarrier (now : Nat) (s : SimpleWindow) (h : s.fifo = false) :
    ((configure now s).2.all notBarrier) = true := by
  by_cases hf : s.first_configure = true
  · simp only [configure, hf, if_true]
    exact draw_noBarrier now _ (by simpa using h)
  · simp [configure, hf]

/-- Without the fifo handle, one delivered callback keeps the handle absent
and emits no barrier calls. -/
theorem handleEv_noBarrier (now : Nat) (e : InEv) (ls : LoopState)
    (h : ls.win.fifo = false) :
    ((handleEv now e ls).1).win.fifo = false ∧
      ((handleEv now e ls).2.all notBarrier) = true := by
  cases e with
  | configureEv =>
      constructor
      · simp [handleEv, applyDraw, configure_fifo, h]
      · simp only [handleEv, applyDraw]
        exact configure_noBarrier now ls.win h
  | closeRequest => simp [handleEv, requestClose, h]
  | release i => simp [handleEv, releaseBuffer, h]
  | idleFire =>
      by_cases hp : ls.idlePending = 0
      · simp [handleEv, hp, h]
      · constructor
        · simp only [handleEv, hp, if_false, applyDraw]
          rw [(draw_state_fields now ls.win).2.2]; exact h
        · simp only [handleEv, hp, if_false, applyDraw]
          exact draw_noBarrier now ls.win h
  | timerFire =>
      by_cases hp : ls.timerPending = 0
      · simp [handleEv, hp, h]
      · constructor
        · simp only [handleEv, hp, if_false, applyDraw]
          rw [(draw_state_fields now ls.win).2.2]; exact h
        · simp only [handleEv, hp, if_false, applyDraw]
          exact draw_noBarrier now ls.win h

/-- Without the fifo handle, a whole dispatch round keeps the handle absent
and its trace contains no barrier calls. -/
theorem processList_noBarrier (now : Nat) (evs : List InEv) (ls : LoopState)
    (h : ls.win.fifo = false) :
    ((processList now evs ls).1).win.fifo = false ∧
      ((processList now evs ls).2.all (fun p => notBarrier p.2)) = true := by
  induction evs generalizing ls with
  | nil => exact ⟨h, by simp [processList]⟩
  | cons e es ih =>
      have he := handleEv_noBarrier now e ls h
      have := ih (handleEv now e ls).1 he.1
      refine ⟨?_, ?_⟩
      · simpa [processList] using this.1
      · simp only [processList, List.all_append, List.all_map]
        rw [Bool.and_eq_true]
        refine ⟨?_, this.2⟩
        simpa using he.2

/-- Without the fifo handle, no number of dispatch rounds ever produces a
barrier call. -/
theorem runRounds_noBarrier (now : Nat) (rounds : List (List InEv)) (ls : LoopState)
    (h : ls.win.fifo = false) :
    ((runRounds now rounds ls).2.all (fun p => notBarrier p.2)) = true := by
  induction rounds generalizing ls with
  | nil => simp [runRounds]
  | cons r rs ih =>
      have hp := processList_noBarrier now r ls h
      by_cases he : ((processList now r ls).1).win.exit = true
      · simpa [runRounds, he] using hp.2
      · have he' : ((processList now r ls).1).win.exit = false := by
          revert he; cases ((processList now r ls).1).win.exit <;> simp
        have h2 := ih _ hp.1
        simp [runRounds, he', List.all_append, hp.2, h2]

/- ------------------------------------------------------------------ -/
/- Claim theorems.                                                    -/
/- ------------------------------------------------------------------ -/

/-- Claim C1: in a draw cycle executed while the fifo (Pacing Controller)
handle is present, the commit is preceded by exactly one `wait_barrier`
followed by exactly one `set_barrier`, contiguously and in that order; the
pair is never skipped (a commit always has it), never split or reordered
(the factorization is `pre ++ [wait, set, commit] ++ post`), and never
issued without a commit. -/
theorem fifo_pair_before_commit (now : Nat) (s : SimpleWindow) (h : s.fifo = true) :
    ((draw now s).2.count Ev.commit ≤ 1) ∧
    (Ev.commit ∉ (draw now s).2 →
      (draw now s).2.count Ev.waitBarrier = 0 ∧ (draw now s).2.count Ev.setBarrier = 0) ∧
    (Ev.commit ∈ (draw now s).2 →
      (draw now s).2.count Ev.waitBarrier = 1 ∧
      (draw now s).2.count Ev.setBarrier = 1 ∧
      ∃ pre post, (draw now s).2 = pre ++ [Ev.waitBarrier, Ev.setBarrier, Ev.commit] ++ post) := by
  cases h2 : findFree s.inUse with
  | none =>
      simp [draw, h2]
  | some i =>
      have hd : (draw now s).2 = drawEvents true i := by
        simp [draw, h2, h]
      rw [hd]
      refine ⟨?_, ?_, ?_⟩
      · rw [drawEvents_count_commit]
      · intro hc
        exact absurd (by simp [drawEvents]) hc
      · intro _
        exact ⟨drawEvents_count_wait i, drawEvents_count_set i,
          [Ev.printDrawing, Ev.damage, Ev.attach i], [Ev.insertTimer], by
            simp [drawEvents]⟩

/-- Witness for C1 at a concrete fully-free paced window. -/
theorem fifo_pair_before_commit_witness :
    winAllFree.fifo = true ∧
    (((draw 0 winAllFree).2.count Ev.commit ≤ 1) ∧
      (Ev.commit ∉ (draw 0 winAllFree).2 →
        (draw 0 winAllFree).2.count Ev.waitBarrier = 0 ∧
        (draw 0 winAllFree).2.count Ev.setBarrier = 0) ∧
      (Ev.commit ∈ (draw 0 winAllFree).2 →
        (draw 0 winAllFree).2.count Ev.waitBarrier = 1 ∧
        (draw 0 winAllFree).2.count Ev.setBarrier = 1 ∧
        ∃ pre post, (draw 0 winAllFree).2 = pre ++ [Ev.waitBarrier, Ev.setBarrier, Ev.commit] ++ post)) :=
  ⟨rfl, fifo_pair_before_commit 0 winAllFree rfl⟩

/-- Claim C2: when no buffer in the pool is free, `draw` issues no damage,
attach, barrier call or commit, leaves the state untouched, schedules
exactly one idle-priority retry (its whole event list is `[insertIdle]`),
and returns normally — even in the attach-fallible model no error can
arise, since the attach is never reached. -/
theorem draw_no_free_buffer_idle_retry (now : Nat) (s : SimpleWindow)
    (h : findFree s.inUse = none) :
    draw now s = (s, [Ev.insertIdle]) ∧
    (∀ attachOk : Bool, drawE attachOk now s = Except.ok (s, [Ev.insertIdle])) := by
  constructor
  · simp [draw, h]
  · intro ok; simp [drawE, h]

/-- Witness for C2 at a concrete window whose four buffers are all busy. -/
theorem draw_no_free_buffer_idle_retry_witness :
    findFree winAllBusy.inUse = none ∧
    (draw 0 winAllBusy = (winAllBusy, [Ev.insertIdle]) ∧
      (∀ attachOk : Bool, drawE attachOk 0 winAllBusy = Except.ok (winAllBusy, [Ev.insertIdle]))) :=
  ⟨by decide, draw_no_free_buffer_idle_retry 0 winAllBusy (by decide)⟩

/-- Counterexample to claim C3 as stated: a pending timer draw callback
that fires later in the same dispatch round as the close request runs
`draw` unconditionally (the source never re-checks `exit` in the callback)
and issues a commit while `exit` is already set — the trace of the round
`[closeRequest, timerFire]` contains a commit tagged with `exit = true`. -/
theorem commit_after_exit_same_round :
    (true, Ev.commit) ∈ (processList 0 [InEv.closeRequest, InEv.timerFire] lsTimerPending).2 := by
  decide

/-- Claim C3 (amended): the outer loop checks `exit` only between dispatch
rounds, so once a round ends with `exit` set the loop terminates
immediately: the remaining rounds are never processed and contribute
nothing — in particular no commit occurs in any round after the round in
which `exit` was set. -/
theorem no_commit_in_rounds_after_exit (now : Nat) (r : List InEv)
    (rs : List (List InEv)) (ls : LoopState)
    (h : ((processList now r ls).1).win.exit = true) :
    runRounds now (r :: rs) ls = processList now r ls := by
  simp [runRounds, h]

/-- Witness for the amended C3: after the round containing the close
request, a further round holding another timer callback is never run. -/
theorem no_commit_in_rounds_after_exit_witness :
    ((processList 0 [InEv.closeRequest, InEv.timerFire] lsTimerPending).1).win.exit = true ∧
    runRounds 0 [[InEv.closeRequest, InEv.timerFire], [InEv.timerFire]] lsTimerPending =
      processList 0 [InEv.closeRequest, InEv.timerFire] lsTimerPending :=
  ⟨by decide, no_commit_in_rounds_after_exit 0 _ _ _ (by decide)⟩

/-- Claim C4: the configure handler draws synchronously exactly on the
first configure event — it then equals a plain `draw` call on the state
with `first_configure` cleared, the flag transitions from true to false,
and among any `n + 1` consecutive configure events exactly one (the first)
triggers a draw from inside the handler. -/
theorem first_configure_draw_once (now : Nat) (n : Nat) (s : SimpleWindow)
    (h : s.first_configure = true) :
    configure now s = draw now { s with first_configure := false } ∧
    ((configure now s).1).first_configure = false ∧
    configureDraws now (n + 1) s = 1 := by
  have hc : configure now s = draw now { s with first_configure := false } := by
    simp [configure, h]
  have hfc : ((configure now s).1).first_configure = false := by
    rw [hc]
    have := (draw_state_fields now { s with first_configure := false }).2.1
    simpa using this
  refine ⟨hc, hfc, ?_⟩
  rw [configureDraws, h]
  rw [configureDraws_of_not_first now n _ hfc]
  simp

/-- Witness for C4 at the initial window state, over three configure
events. -/
theorem first_configure_draw_once_witness :
    (initWindow true).first_configure = true ∧
    (configure 0 (initWindow true) = draw 0 { initWindow true with first_configure := false } ∧
      ((configure 0 (initWindow true)).1).first_configure = false ∧
      configureDraws 0 3 (initWindow true) = 1) :=
  ⟨rfl, first_configure_draw_once 0 2 (initWindow true) rfl⟩

/-- Claim C5: every `draw` invocation schedules exactly one follow-up
attempt — the counts of idle-retry and immediate-timer insertions sum to
one — and the two paths are mutually exclusive and exhaustive: the idle
retry occurs exactly when no buffer was free, the timer exactly when a
buffer was submitted. -/
theorem draw_schedules_exactly_one_followup (now : Nat) (s : SimpleWindow) :
    ((draw now s).2.count Ev.insertIdle) + ((draw now s).2.count Ev.insertTimer) = 1 ∧
    (Ev.insertIdle ∈ (draw now s).2 ↔ findFree s.inUse = none) ∧
    (Ev.insertTimer ∈ (draw now s).2 ↔ findFree s.inUse ≠ none) := by
  cases h2 : findFree s.inUse with
  | none => simp [draw, h2]
  | some i =>
      cases hf : s.fifo <;>
        simp [draw, h2, hf, drawEvents, List.count_cons]

/-- Claim C6: when the pacing feature is disabled by the `no_fifo` flag,
the fifo handle is absent regardless of service availability, and across
any number of dispatch rounds — hence any number of draw cycles — the trace
contains no `wait_barrier` or `set_barrier` call. -/
theorem no_fifo_no_barriers (avail : Bool) (now : Nat) (rounds : List (List InEv)) :
    ((runRounds now rounds (initLoopState (fifoHandle true avail))).2.all
      (fun p => notBarrier p.2)) = true :=
  runRounds_noBarrier now rounds _ rfl

/-- Claim C7: the free-buffer lookup returns the first buffer in fixed
index order whose in-use flag is clear (every earlier buffer is in use),
returns none only when all four are in use, returns buffer 0 when all four
are free, and — being a pure function of the in-use flags — gives the same
identity on repeated lookups with no intervening submit or release. -/
theorem find_free_first_clear (u : Fin 4 → Bool) :
    (∀ i, findFree u = some i → u i = false ∧ ∀ j, j < i → u j = true) ∧
    (findFree u = none → ∀ i, u i = true) ∧
    ((∀ i, u i = false) → findFree u = some 0) ∧
    (∀ u' : Fin 4 → Bool, (∀ i, u i = u' i) → findFree u = findFree u') := by
  refine ⟨?_, ?_, ?_, ?_⟩
  · revert u; decide
  · revert u; decide
  · revert u; decide
  · intro u' h
    have : u = u' := funext h
    rw [this]

/-- Witness for C7: on the all-free pool the lookup returns buffer 0. -/
theorem find_free_first_clear_witness :
    (∀ i : Fin 4, allFreeFlags i = false) ∧ findFree allFreeFlags = some 0 :=
  ⟨by decide, (find_free_first_clear allFreeFlags).2.2.1 (by decide)⟩

/-- Claim C8: when a buffer was chosen but attaching it fails, the draw
cycle aborts with the diagnostic `buffer attach` (the `expect` call, a
process abort with non-zero status); the failure is never absorbed — the
result is the error, not a recovered `ok`. -/
theorem attach_failure_aborts (now : Nat) (s : SimpleWindow)
    (h : findFree s.inUse ≠ none) :
    drawE false now s = Except.error "buffer attach" := by
  cases h2 : findFree s.inUse with
  | none => exact absurd h2 h
  | some i => simp [drawE, h2]

/-- Witness for C8 at a concrete window with a free buffer. -/
theorem attach_failure_aborts_witness :
    findFree winAllFree.inUse ≠ none ∧
    drawE false 0 winAllFree = Except.error "buffer attach" :=
  ⟨by decide, attach_failure_aborts 0 winAllFree (by decide)⟩

/-- Counterexample to claim C9 as stated: the byte size passed to
`SlotPool::new` at startup is `WIDTH * HEIGHT * 4` = 262144, which is not
at least `4 * WIDTH * HEIGHT * 4` = 1048576 — the segment the pool is
created with cannot hold all four buffers. -/
theorem pool_initial_size_not_four_buffers :
    ¬ (bufferCount * (WIDTH * HEIGHT * 4) ≤ poolInitialSize) := by decide

/-- Claim C9 (amended): the pool is created at startup with
`WIDTH * HEIGHT * 4` bytes — the size of exactly one Argb8888 buffer, a
quarter of what the four fixed-size buffers need; the four buffers are only
accommodated because the slot-pool library grows the segment on demand
during the subsequent `create_buffer` calls. -/
theorem pool_initial_size_one_buffer :
    poolInitialSize = bufferByteSize ∧
    poolInitialSize = WIDTH * HEIGHT * 4 ∧
    poolInitialSize < bufferCount * bufferByteSize := by
  refine ⟨by decide, by decide, by decide⟩

/-- Claim C10: the `exit` flag is monotone and has a single writer — after
delivering any list of callbacks, `exit` is set iff it was already set or a
close request (the only handler that writes it, and it writes `true`) was
among them; in particular once true it remains true for the rest of the
run. -/
theorem exit_monotone (now : Nat) (evs : List InEv) (ls : LoopState) :
    ((processList now evs ls).1).win.exit = (ls.win.exit || evs.any isClose) := by
  induction evs generalizing ls with
  | nil => simp [processList]
  | cons e es ih =>
      simp only [processList, List.any_cons]
      rw [ih, handleEv_exit, Bool.or_assoc]
